import Mathlib

/-!
Shallow embedding of the key-mapping, sensitivity, persistence and bridge
logic of the MotionPlay settings repository
(src/devfest26/src/pages/Settings.jsx and the GameDashboard component),
with theorems checking the specification's claims against it.
-/

/-- The four movements of the catalog (MOVEMENTS in Settings.jsx). -/
inductive Movement
  | jump
  | squat
  | moveLeft
  | moveRight
deriving DecidableEq, Repr

/-- A key-binding mapping: movementId → keyCode | null. -/
def Mapping : Type := Movement → Option String

/-- DEFAULT_MAPPINGS from Settings.jsx. -/
def DEFAULT_MAPPINGS : Mapping
  | .jump => some "Space"
  | .squat => some "ArrowDown"
  | .moveLeft => some "ArrowLeft"
  | .moveRight => some "ArrowRight"

/-- The mapping mutation performed by handleKeyDrop in Settings.jsx once a
dragged movement is known: every movement currently holding `keyCode` is set
to null, then the dragged movement is bound to `keyCode`. -/
def assign (M : Mapping) (m : Movement) (keyCode : String) : Mapping :=
  fun m2 =>
    if m2 = m then some keyCode
    else if M m2 = some keyCode then none
    else M m2

/-- handleClearMapping in Settings.jsx restricted to the mapping: the given
movement's binding is set to null. -/
def clear (M : Mapping) (m : Movement) : Mapping :=
  fun m2 => if m2 = m then none else M m2

/-- The exclusivity invariant of the spec: no two movements map to the same
non-null keyCode. -/
def Exclusive (M : Mapping) : Prop :=
  ∀ m1 m2 : Movement, ∀ k : String, M m1 = some k → M m2 = some k → m1 = m2

lemma exclusive_default : Exclusive DEFAULT_MAPPINGS := by
  intro m1 m2 k h1 h2
  cases m1 <;> cases m2 <;> first
    | rfl
    | (injection h1 with h1x
       injection h2 with h2x
       exact absurd (h1x.trans h2x.symm) (by decide))

lemma exclusive_assign (M : Mapping) (m : Movement) (k : String)
    (hM : Exclusive M) : Exclusive (assign M m k) := by
  intro m1 m2 k2 h1 h2
  by_cases e1 : m1 = m <;> by_cases e2 : m2 = m
  · exact e1.trans e2.symm
  · rw [assign, if_pos e1] at h1
    obtain rfl : k = k2 := Option.some.inj h1
    rw [assign, if_neg e2] at h2
    by_cases hv : M m2 = some k
    · rw [if_pos hv] at h2
      exact absurd h2 (by simp)
    · rw [if_neg hv] at h2
      exact absurd h2 hv
  · rw [assign, if_pos e2] at h2
    obtain rfl : k = k2 := Option.some.inj h2
    rw [assign, if_neg e1] at h1
    by_cases hv : M m1 = some k
    · rw [if_pos hv] at h1
      exact absurd h1 (by simp)
    · rw [if_neg hv] at h1
      exact absurd h1 hv
  · rw [assign, if_neg e1] at h1
    rw [assign, if_neg e2] at h2
    by_cases hv1 : M m1 = some k
    · rw [if_pos hv1] at h1
      exact absurd h1 (by simp)
    · rw [if_neg hv1] at h1
      by_cases hv2 : M m2 = some k
      · rw [if_pos hv2] at h2
        exact absurd h2 (by simp)
      · rw [if_neg hv2] at h2
        exact hM m1 m2 k2 h1 h2

lemma exclusive_clear (M : Mapping) (m : Movement)
    (hM : Exclusive M) : Exclusive (clear M m) := by
  intro m1 m2 k h1 h2
  by_cases e1 : m1 = m <;> by_cases e2 : m2 = m
  · exact e1.trans e2.symm
  · simp [clear, e1] at h1
  · simp [clear, e2] at h2
  · simp only [clear, if_neg e1] at h1
    simp only [clear, if_neg e2] at h2
    exact hM m1 m2 k h1 h2

/-- One mapping mutation: an assign (key drop) or a clear. -/
inductive MapOp
  | assignOp (m : Movement) (keyCode : String)
  | clearOp (m : Movement)

/-- Apply one mapping mutation. -/
def applyMapOp (M : Mapping) : MapOp → Mapping
  | .assignOp m k => assign M m k
  | .clearOp m => clear M m

/-- Apply a sequence of mapping mutations in order. -/
def applyMapOps (M : Mapping) (ops : List MapOp) : Mapping :=
  ops.foldl applyMapOp M

lemma exclusive_applyMapOps (ops : List MapOp) :
    ∀ M : Mapping, Exclusive M → Exclusive (applyMapOps M ops) := by
  induction ops with
  | nil => intro M h; exact h
  | cons op rest ih =>
      intro M h
      have hstep : Exclusive (applyMapOp M op) := by
        cases op with
        | assignOp m k => exact exclusive_assign M m k h
        | clearOp m => exact exclusive_clear M m h
      exact ih (applyMapOp M op) hstep

/-- C1: starting from the default mapping, every sequence of assign and
clear operations leaves the mapping with at most one movement bound to any
given non-null keyCode; assigning first clears any other holder of the key,
so exclusivity is never violated. -/
theorem assign_clear_preserve_exclusivity (ops : List MapOp) :
    Exclusive (applyMapOps DEFAULT_MAPPINGS ops) :=
  exclusive_applyMapOps ops DEFAULT_MAPPINGS exclusive_default

/-- C6: the default mapping binds jump→Space, squat→ArrowDown,
moveLeft→ArrowLeft, moveRight→ArrowRight, and assigning ArrowDown to jump
clears squat's binding while leaving the others intact. -/
theorem default_mapping_and_conflict_scenario :
    DEFAULT_MAPPINGS .jump = some "Space" ∧
    DEFAULT_MAPPINGS .squat = some "ArrowDown" ∧
    DEFAULT_MAPPINGS .moveLeft = some "ArrowLeft" ∧
    DEFAULT_MAPPINGS .moveRight = some "ArrowRight" ∧
    assign DEFAULT_MAPPINGS .jump "ArrowDown" .jump = some "ArrowDown" ∧
    assign DEFAULT_MAPPINGS .jump "ArrowDown" .squat = none ∧
    assign DEFAULT_MAPPINGS .jump "ArrowDown" .moveLeft = some "ArrowLeft" ∧
    assign DEFAULT_MAPPINGS .jump "ArrowDown" .moveRight = some "ArrowRight" := by
  refine ⟨rfl, rfl, rfl, rfl, ?_, ?_, ?_, ?_⟩ <;> decide

/-- C9: assigning a movement the keyCode it already holds leaves the whole
mapping unchanged, for every mapping satisfying the data model's exclusivity
invariant: the conflict-clearing pass clears only m's own entry and the
assignment restores it. -/
theorem assign_same_key_noop (M : Mapping) (m : Movement) (k : String)
    (hex : Exclusive M) (h : M m = some k) : assign M m k = M := by
  funext m2
  by_cases e : m2 = m
  · subst e
    rw [assign, if_pos rfl, h]
  · rw [assign, if_neg e]
    by_cases hv : M m2 = some k
    · exact absurd (hex m2 m k hv h) e
    · rw [if_neg hv]

/-- Witness for C9: re-assigning Space to jump leaves the default mapping
unchanged. -/
theorem assign_same_key_noop_witness :
    assign DEFAULT_MAPPINGS .jump "Space" = DEFAULT_MAPPINGS :=
  assign_same_key_noop DEFAULT_MAPPINGS .jump "Space" exclusive_default rfl

/-- The five named sensitivity parameters of Settings.jsx. -/
inductive SensParam
  | jumpSensitivity
  | squatSensitivity
  | sideSensitivity
  | repeatDelay
  | repeatInterval
deriving DecidableEq, Repr

/-- The sensitivity configuration object of Settings.jsx (numeric values
modelled as exact rationals). -/
structure Sens where
  jumpSensitivity : ℚ
  squatSensitivity : ℚ
  sideSensitivity : ℚ
  repeatDelay : ℚ
  repeatInterval : ℚ
deriving DecidableEq, Repr

/-- The default sensitivity object of the useState initializer and
handleReset in Settings.jsx. -/
def defaultSensitivity : Sens :=
  { jumpSensitivity := 1 / 2    -- 0.5
    squatSensitivity := 1 / 2   -- 0.5
    sideSensitivity := 1 / 2    -- 0.5
    repeatDelay := 1            -- 1.0
    repeatInterval := 1 / 5 }   -- 0.2

/-- Read one field of the sensitivity object. -/
def paramValue (s : Sens) : SensParam → ℚ
  | .jumpSensitivity => s.jumpSensitivity
  | .squatSensitivity => s.squatSensitivity
  | .sideSensitivity => s.sideSensitivity
  | .repeatDelay => s.repeatDelay
  | .repeatInterval => s.repeatInterval

/-- handleSensitivityChange in Settings.jsx: the named field is replaced by
the parsed value, with no validation of any kind. -/
def handleSensitivityChange (s : Sens) (p : SensParam) (v : ℚ) : Sens :=
  match p with
  | .jumpSensitivity => { s with jumpSensitivity := v }
  | .squatSensitivity => { s with squatSensitivity := v }
  | .sideSensitivity => { s with sideSensitivity := v }
  | .repeatDelay => { s with repeatDelay := v }
  | .repeatInterval => { s with repeatInterval := v }

/-- The [min, max] range each parameter's slider declares in Settings.jsx
(the three sensitivity sliders declare 0.1–1.0, the hold-delay slider
declares 0.1–2.0; repeatInterval has no slider, hence no declared range). -/
def declaredRange : SensParam → Option (ℚ × ℚ)
  | .jumpSensitivity => some (1 / 10, 1)   -- min 0.1, max 1.0
  | .squatSensitivity => some (1 / 10, 1)  -- min 0.1, max 1.0
  | .sideSensitivity => some (1 / 10, 1)   -- min 0.1, max 1.0
  | .repeatDelay => some (1 / 10, 2)       -- min 0.1, max 2.0
  | .repeatInterval => none

/-- Whether one parameter's stored value lies within its declared range. -/
def inRangeB (s : Sens) (p : SensParam) : Bool :=
  match declaredRange p with
  | some r => decide (r.1 ≤ paramValue s p) && decide (paramValue s p ≤ r.2)
  | none => true

/-- The list of all sensitivity parameters. -/
def allParams : List SensParam :=
  [.jumpSensitivity, .squatSensitivity, .sideSensitivity, .repeatDelay,
   .repeatInterval]

/-- The range invariant: every stored value lies within its declared range. -/
def SensInRange (s : Sens) : Prop :=
  ∀ p ∈ allParams, inRangeB s p = true

instance (s : Sens) : Decidable (SensInRange s) :=
  inferInstanceAs (Decidable (∀ p ∈ allParams, inRangeB s p = true))

/-- The full Settings component state: mapping, drag session and
sensitivity (the `saved` banner flag carries no logic and is omitted). -/
structure SettingsState where
  mappings : Mapping
  draggedMovement : Option Movement
  sensitivity : Sens

/-- handleDragStart in Settings.jsx. -/
def handleDragStart (st : SettingsState) (m : Movement) : SettingsState :=
  { st with draggedMovement := some m }

/-- handleDragEnd in Settings.jsx. -/
def handleDragEnd (st : SettingsState) : SettingsState :=
  { st with draggedMovement := none }

/-- handleKeyDrop in Settings.jsx: if a movement is being dragged, clear any
movement holding the key, bind the dragged movement to it and end the drag;
otherwise do nothing. -/
def handleKeyDrop (st : SettingsState) (keyCode : String) : SettingsState :=
  match st.draggedMovement with
  | some m =>
      { st with mappings := assign st.mappings m keyCode
                draggedMovement := none }
  | none => st

/-- handleClearMapping in Settings.jsx: the movement's binding is set to
null. -/
def handleClearMapping (st : SettingsState) (m : Movement) : SettingsState :=
  { st with mappings := clear st.mappings m }

/-- The component state on first mount with empty storage: default mapping,
no drag in progress, default sensitivity. -/
def initialSettingsState : SettingsState :=
  { mappings := DEFAULT_MAPPINGS
    draggedMovement := none
    sensitivity := defaultSensitivity }

/-- C7: beginDrag(A); beginDrag(B); drop(k) binds B — the last beginDrag
wins — leaves A unbound from k, and returns the controller to Idle. -/
theorem last_beginDrag_wins (st : SettingsState) (A B : Movement)
    (k : String) (hAB : A ≠ B) :
    (handleKeyDrop (handleDragStart (handleDragStart st A) B) k).draggedMovement
      = none ∧
    (handleKeyDrop (handleDragStart (handleDragStart st A) B) k).mappings B
      = some k ∧
    (handleKeyDrop (handleDragStart (handleDragStart st A) B) k).mappings A
      ≠ some k := by
  refine ⟨rfl, ?_, ?_⟩
  · show assign st.mappings B k B = some k
    rw [assign, if_pos rfl]
  · show assign st.mappings B k A ≠ some k
    rw [assign, if_neg hAB]
    by_cases hv : st.mappings A = some k
    · rw [if_pos hv]
      simp
    · rw [if_neg hv]
      exact hv

/-- Witness for C7: dragging jump, then squat, then dropping on KeyW binds
squat to KeyW, leaves jump off KeyW and ends the drag. -/
theorem last_beginDrag_wins_witness :
    Movement.jump ≠ Movement.squat ∧
    ((handleKeyDrop (handleDragStart (handleDragStart initialSettingsState
        .jump) .squat) "KeyW").draggedMovement = none ∧
     (handleKeyDrop (handleDragStart (handleDragStart initialSettingsState
        .jump) .squat) "KeyW").mappings .squat = some "KeyW" ∧
     (handleKeyDrop (handleDragStart (handleDragStart initialSettingsState
        .jump) .squat) "KeyW").mappings .jump ≠ some "KeyW") :=
  ⟨by decide,
   last_beginDrag_wins initialSettingsState .jump .squat "KeyW" (by decide)⟩

/-- C10: handleClearMapping touches only the given movement's binding —
every other movement's binding, the sensitivity configuration and the drag
session are unchanged, and the cleared movement's binding is null. -/
theorem clearMapping_frame (st : SettingsState) (m m2 : Movement)
    (h : m2 ≠ m) :
    (handleClearMapping st m).mappings m2 = st.mappings m2 ∧
    (handleClearMapping st m).sensitivity = st.sensitivity ∧
    (handleClearMapping st m).draggedMovement = st.draggedMovement ∧
    (handleClearMapping st m).mappings m = none := by
  refine ⟨?_, rfl, rfl, ?_⟩
  · show clear st.mappings m m2 = st.mappings m2
    rw [clear, if_neg h]
  · show clear st.mappings m m = none
    rw [clear, if_pos rfl]

/-- Witness for C10: clearing jump in the initial state leaves squat's
binding, the sensitivity and the drag session untouched. -/
theorem clearMapping_frame_witness :
    Movement.squat ≠ Movement.jump ∧
    ((handleClearMapping initialSettingsState .jump).mappings .squat
       = initialSettingsState.mappings .squat ∧
     (handleClearMapping initialSettingsState .jump).sensitivity
       = initialSettingsState.sensitivity ∧
     (handleClearMapping initialSettingsState .jump).draggedMovement
       = initialSettingsState.draggedMovement ∧
     (handleClearMapping initialSettingsState .jump).mappings .jump = none) :=
  ⟨by decide, clearMapping_frame initialSettingsState .jump .squat (by decide)⟩

/-- Whether a candidate value for a parameter lies in its declared range. -/
def valInRangeB (p : SensParam) (v : ℚ) : Bool :=
  match declaredRange p with
  | some r => decide (r.1 ≤ v) && decide (v ≤ r.2)
  | none => true

/-- Apply a sequence of handleSensitivityChange calls in order. -/
def applySensSets (s : Sens) (sets : List (SensParam × ℚ)) : Sens :=
  sets.foldl (fun acc pv => handleSensitivityChange acc pv.1 pv.2) s

lemma inRangeB_eq_valInRangeB (s : Sens) (q : SensParam) :
    inRangeB s q = valInRangeB q (paramValue s q) := by
  cases q <;> rfl

lemma paramValue_set_same (s : Sens) (p : SensParam) (v : ℚ) :
    paramValue (handleSensitivityChange s p v) p = v := by
  cases p <;> rfl

lemma paramValue_set_other (s : Sens) (p q : SensParam) (v : ℚ)
    (h : q ≠ p) :
    paramValue (handleSensitivityChange s p v) q = paramValue s q := by
  cases p <;> cases q <;> first | rfl | exact absurd rfl h

lemma sensInRange_default : SensInRange defaultSensitivity := by
  intro p hp
  fin_cases hp <;>
    norm_num [inRangeB, declaredRange, paramValue, defaultSensitivity]

lemma sensInRange_set (s : Sens) (p : SensParam) (v : ℚ)
    (hs : SensInRange s) (hv : valInRangeB p v = true) :
    SensInRange (handleSensitivityChange s p v) := by
  intro q hq
  by_cases e : q = p
  · subst e
    rw [inRangeB_eq_valInRangeB, paramValue_set_same]
    exact hv
  · rw [inRangeB_eq_valInRangeB, paramValue_set_other s p q v e,
      ← inRangeB_eq_valInRangeB]
    exact hs q hq

/-- Counterexample to C3: handleSensitivityChange stores the given value
unconditionally; setting jumpSensitivity to 5 stores 5, which is outside the
declared range 0.1–1.0, instead of keeping the prior value 0.5. -/
theorem sensitivity_set_unclamped_counterexample :
    (handleSensitivityChange defaultSensitivity .jumpSensitivity
        5).jumpSensitivity = 5 ∧
    (handleSensitivityChange defaultSensitivity .jumpSensitivity
        5).jumpSensitivity ≠ defaultSensitivity.jumpSensitivity ∧
    ¬ SensInRange
        (handleSensitivityChange defaultSensitivity .jumpSensitivity 5) := by
  refine ⟨rfl, by norm_num [handleSensitivityChange, defaultSensitivity], ?_⟩
  intro h
  have h1 := h .jumpSensitivity (by simp [allParams])
  rw [inRangeB_eq_valInRangeB, paramValue_set_same] at h1
  norm_num [valInRangeB, declaredRange] at h1

/-- C3 as amended: handleSensitivityChange performs no clamping or
rejection, so the range invariant is guaranteed only for sequences of sets
whose values all lie within the declared ranges; for those, every stored
value stays within its parameter's declared range. -/
theorem sensitivity_range_invariant_for_inrange_sets
    (sets : List (SensParam × ℚ))
    (h : ∀ pv ∈ sets, valInRangeB pv.1 pv.2 = true) :
    SensInRange (applySensSets defaultSensitivity sets) := by
  suffices H : ∀ (l : List (SensParam × ℚ)) (s : Sens), SensInRange s →
      (∀ pv ∈ l, valInRangeB pv.1 pv.2 = true) →
      SensInRange (applySensSets s l) from
    H sets defaultSensitivity sensInRange_default h
  intro l
  induction l with
  | nil => intro s hs _; exact hs
  | cons pv rest ih =>
      intro s hs hl
      exact ih (handleSensitivityChange s pv.1 pv.2)
        (sensInRange_set s pv.1 pv.2 hs (hl pv (List.mem_cons_self pv rest)))
        (fun q hq => hl q (List.mem_cons_of_mem pv hq))

/-- Witness for the amended C3: two in-range sets keep every stored value in
range. -/
theorem sensitivity_range_invariant_for_inrange_sets_witness :
    (∀ pv ∈ [(SensParam.jumpSensitivity, (3 / 10 : ℚ)),
             (SensParam.repeatDelay, (3 / 2 : ℚ))],
       valInRangeB pv.1 pv.2 = true) ∧
    SensInRange (applySensSets defaultSensitivity
      [(SensParam.jumpSensitivity, (3 / 10 : ℚ)),
       (SensParam.repeatDelay, (3 / 2 : ℚ))]) := by
  have hin : ∀ pv ∈ [(SensParam.jumpSensitivity, (3 / 10 : ℚ)),
      (SensParam.repeatDelay, (3 / 2 : ℚ))], valInRangeB pv.1 pv.2 = true := by
    intro pv hpv
    fin_cases hpv <;> norm_num [valInRangeB, declaredRange]
  exact ⟨hin,
    sensitivity_range_invariant_for_inrange_sets
      [(SensParam.jumpSensitivity, (3 / 10 : ℚ)),
       (SensParam.repeatDelay, (3 / 2 : ℚ))] hin⟩

/-- A JSON document, standing for the serialized string localStorage holds
(JSON text and JSON value are in bijection up to formatting, and the numbers
this app writes round-trip exactly through JSON.stringify/JSON.parse). -/
inductive JsonVal
  | jnull
  | jstr (s : String)
  | jnum (q : ℚ)
  | jobj (fields : List (String × JsonVal))

/-- First-match lookup of a field in a JSON object, as JS property access. -/
def jlookup : List (String × JsonVal) → String → Option JsonVal
  | [], _ => none
  | (k, v) :: rest, key => if k = key then some v else jlookup rest key

/-- How JSON.stringify renders one binding value: null or the key string. -/
def encodeKey : Option String → JsonVal
  | none => .jnull
  | some s => .jstr s

/-- JSON.stringify of the mappings object of Settings.jsx. -/
def encodeMapping (M : Mapping) : JsonVal :=
  .jobj [("jump", encodeKey (M .jump)),
         ("squat", encodeKey (M .squat)),
         ("moveLeft", encodeKey (M .moveLeft)),
         ("moveRight", encodeKey (M .moveRight))]

/-- The JS property name of each movement. -/
def movementKey : Movement → String
  | .jump => "jump"
  | .squat => "squat"
  | .moveLeft => "moveLeft"
  | .moveRight => "moveRight"

/-- Reading a parsed mappings object the way Settings.jsx does
(mappings[movement.id]): a string field is a binding, anything else is
treated as unmapped. -/
def decodeMapping (j : JsonVal) : Mapping :=
  fun m =>
    match j with
    | .jobj fields =>
        match jlookup fields (movementKey m) with
        | some (.jstr s) => some s
        | _ => none
    | _ => none

/-- JSON.stringify of the sensitivity object of Settings.jsx. -/
def encodeSens (s : Sens) : JsonVal :=
  .jobj [("jumpSensitivity", .jnum s.jumpSensitivity),
         ("squatSensitivity", .jnum s.squatSensitivity),
         ("sideSensitivity", .jnum s.sideSensitivity),
         ("repeatDelay", .jnum s.repeatDelay),
         ("repeatInterval", .jnum s.repeatInterval)]

/-- A numeric JSON field, if present. -/
def asNum : Option JsonVal → Option ℚ
  | some (.jnum q) => some q
  | _ => none

/-- Reading a parsed sensitivity object the way Settings.jsx does (the five
named numeric fields); `none` when some field is missing or non-numeric. -/
def decodeSens (j : JsonVal) : Option Sens :=
  match j with
  | .jobj fields =>
      match asNum (jlookup fields "jumpSensitivity"),
            asNum (jlookup fields "squatSensitivity"),
            asNum (jlookup fields "sideSensitivity"),
            asNum (jlookup fields "repeatDelay"),
            asNum (jlookup fields "repeatInterval") with
      | some a, some b, some c, some d, some e => some ⟨a, b, c, d, e⟩
      | _, _, _, _, _ => none
  | _ => none

/-- The two logical localStorage keys the component uses. -/
structure Store where
  movementMappings : Option JsonVal
  movementSensitivity : Option JsonVal

/-- handleSave in Settings.jsx: both snapshots are written to their keys,
overwriting whatever the store held. -/
def handleSave (M : Mapping) (s : Sens) (_st : Store) : Store :=
  { movementMappings := some (encodeMapping M)
    movementSensitivity := some (encodeSens s) }

/-- The mappings useState initializer of Settings.jsx on a store whose
content parses: a present snapshot is used, an absent one falls back to
DEFAULT_MAPPINGS. -/
def loadMappingsInit (st : Store) : Mapping :=
  match st.movementMappings with
  | some j => decodeMapping j
  | none => DEFAULT_MAPPINGS

/-- The sensitivity useState initializer of Settings.jsx on a store whose
content parses: a present snapshot is read, an absent one falls back to the
default object. -/
def loadSensitivityInit (st : Store) : Option Sens :=
  match st.movementSensitivity with
  | some j => decodeSens j
  | none => some defaultSensitivity

lemma decode_encode_mapping (M : Mapping) :
    decodeMapping (encodeMapping M) = M := by
  funext m
  cases m
  case jump =>
    cases h : M .jump <;>
      simp [decodeMapping, encodeMapping, jlookup, movementKey, encodeKey, h]
  case squat =>
    cases h : M .squat <;>
      simp [decodeMapping, encodeMapping, jlookup, movementKey, encodeKey, h]
  case moveLeft =>
    cases h : M .moveLeft <;>
      simp [decodeMapping, encodeMapping, jlookup, movementKey, encodeKey, h]
  case moveRight =>
    cases h : M .moveRight <;>
      simp [decodeMapping, encodeMapping, jlookup, movementKey, encodeKey, h]

lemma decode_encode_sens (s : Sens) : decodeSens (encodeSens s) = some s := by
  obtain ⟨a, b, c, d, e⟩ := s
  rfl

/-- C8: saving and then freshly loading, with the store returning exactly
what was written, reproduces the exact mapping and sensitivity values. -/
theorem save_load_roundtrip (M : Mapping) (s : Sens) (st : Store) :
    loadMappingsInit (handleSave M s st) = M ∧
    loadSensitivityInit (handleSave M s st) = some s :=
  ⟨decode_encode_mapping M, decode_encode_sens s⟩

/-- The mappings useState initializer of Settings.jsx with JSON.parse (a
platform function) passed explicitly: `saved ? JSON.parse(saved) :
DEFAULT_MAPPINGS`. JSON.parse throwing on an unparsable string is modelled
as `Except.error`; the source wraps the call in no try/catch, so the throw
propagates and only an absent string falls back to the default. -/
def loadMappingsRaw (parse : String → Option Mapping) :
    Option String → Except Unit Mapping
  | some s =>
      match parse s with
      | some M => Except.ok M
      | none => Except.error ()
  | none => Except.ok DEFAULT_MAPPINGS

/-- A stand-in for JSON.parse on two inputs: the string "ok" parses (to the
default mapping object), the one-character opening-brace string is
unparsable JSON. -/
def parseDemo : String → Option Mapping :=
  fun str => if str = "ok" then some DEFAULT_MAPPINGS else none

/-- Counterexample to C4: with a stored string that is present but
unparsable, the useState initializer propagates JSON.parse's error instead
of discarding the snapshot and returning the catalog default. -/
theorem load_unparsable_raises_counterexample :
    loadMappingsRaw parseDemo (some "\x7b") = Except.error () ∧
    loadMappingsRaw parseDemo (some "\x7b") ≠ Except.ok DEFAULT_MAPPINGS := by
  constructor
  · rfl
  · intro h
    rw [show loadMappingsRaw parseDemo (some "\x7b") = Except.error () from rfl]
      at h
    exact Except.noConfusion h

/-- C4 as amended: an absent snapshot falls back to the catalog default and
a parsable snapshot is used, but a present unparsable snapshot makes the
load raise (the JSON.parse error propagates) rather than yield the
default. -/
theorem load_absent_defaults_unparsable_raises
    (parse : String → Option Mapping) (s t : String) (M : Mapping)
    (hs : parse s = some M) (ht : parse t = none) :
    loadMappingsRaw parse none = Except.ok DEFAULT_MAPPINGS ∧
    loadMappingsRaw parse (some s) = Except.ok M ∧
    loadMappingsRaw parse (some t) = Except.error () := by
  refine ⟨rfl, ?_, ?_⟩ <;> simp [loadMappingsRaw, hs, ht]

/-- Witness for the amended C4 at the stand-in parse function. -/
theorem load_absent_defaults_unparsable_raises_witness :
    parseDemo "ok" = some DEFAULT_MAPPINGS ∧ parseDemo "\x7b" = none ∧
    (loadMappingsRaw parseDemo none = Except.ok DEFAULT_MAPPINGS ∧
     loadMappingsRaw parseDemo (some "ok") = Except.ok DEFAULT_MAPPINGS ∧
     loadMappingsRaw parseDemo (some "\x7b") = Except.error ()) :=
  ⟨rfl, rfl,
   load_absent_defaults_unparsable_raises parseDemo "ok" "\x7b"
     DEFAULT_MAPPINGS rfl rfl⟩

/-- The two wire message kinds GameDashboard sends. -/
inductive Msg
  | config (mappings : Option JsonVal) (sensitivity : Option JsonVal)
  | stop

/-- The GameDashboard component state plus the observable effects of its
handlers: sockets are numbered in creation order; `opened` records every
`new WebSocket` call, `sent` every `send`, `closeCalls` every `close()`,
`alerts` every "Could not connect" alert. The localStorage snapshots read
by the onopen handler are part of the state. -/
structure Dashboard where
  isConnected : Bool
  isRunning : Bool
  ws : Option Nat
  nextId : Nat
  opened : List Nat
  sent : List (Nat × Msg)
  closeCalls : List Nat
  alerts : Nat
  storeMappings : Option JsonVal
  storeSensitivity : Option JsonVal

/-- An event the component reacts to: a click on the Start/Stop toggle, or
a transport callback (open/close/error) of the numbered socket. -/
inductive Ev
  | clickToggle
  | wsOpen (s : Nat)
  | wsClose (s : Nat)
  | wsError (s : Nat)

/-- One event-handler run of GameDashboard, translated from
handleToggleBackend and the socket callbacks it installs:
- a click with isRunning false creates a new WebSocket and stores it in ws;
- a click with isRunning true sends a stop message on ws (if any), closes
  it, and clears both flags;
- onopen sets both flags and sends one config message carrying the current
  localStorage snapshots (absent snapshots are sent as null);
- onclose clears both flags;
- onerror clears both flags and raises the "Could not connect" alert. -/
def step (d : Dashboard) : Ev → Dashboard
  | .clickToggle =>
      if !d.isRunning then
        { d with ws := some d.nextId
                 nextId := d.nextId + 1
                 opened := d.opened ++ [d.nextId] }
      else
        match d.ws with
        | some s =>
            { d with sent := d.sent ++ [(s, .stop)]
                     closeCalls := d.closeCalls ++ [s]
                     isRunning := false
                     isConnected := false }
        | none =>
            { d with isRunning := false, isConnected := false }
  | .wsOpen s =>
      { d with isConnected := true
               isRunning := true
               sent := d.sent ++ [(s, .config d.storeMappings
                                              d.storeSensitivity)] }
  | .wsClose _ =>
      { d with isConnected := false, isRunning := false }
  | .wsError _ =>
      { d with isConnected := false
               isRunning := false
               alerts := d.alerts + 1 }

/-- Run a sequence of events from a state. -/
def run (d : Dashboard) (evs : List Ev) : Dashboard :=
  evs.foldl step d

/-- The component state on mount, before any click, with empty storage. -/
def initialDashboard : Dashboard :=
  { isConnected := false
    isRunning := false
    ws := none
    nextId := 0
    opened := []
    sent := []
    closeCalls := []
    alerts := 0
    storeMappings := none
    storeSensitivity := none }

/-- How many config messages a send log holds. -/
def countConfigs : List (Nat × Msg) → Nat
  | [] => 0
  | (_, .config _ _) :: rest => countConfigs rest + 1
  | (_, .stop) :: rest => countConfigs rest

/-- How many stop messages a send log holds. -/
def countStops : List (Nat × Msg) → Nat
  | [] => 0
  | (_, .stop) :: rest => countStops rest + 1
  | (_, .config _ _) :: rest => countStops rest

/-- Counterexample to C2: a second start click arriving while the bridge is
still Connecting (isRunning is only set by onopen) creates a second
WebSocket, so two connections are opened and, once both complete, two
config messages have been sent — the second call is not a no-op. -/
theorem double_start_counterexample :
    (run initialDashboard
      [.clickToggle, .clickToggle, .wsOpen 0, .wsOpen 1]).opened.length = 2 ∧
    countConfigs (run initialDashboard
      [.clickToggle, .clickToggle, .wsOpen 0, .wsOpen 1]).sent = 2 := by
  constructor <;> rfl

/-- C2 as amended: start(); start() from Disconnected with the second click
arriving while still Connecting opens two connections and sends two config
messages, ending Connected; a second click arriving only after the open
completes instead takes the stop branch (one connection, one config, one
stop, ending Disconnected). -/
theorem double_start_opens_two_connections :
    ((run initialDashboard
        [.clickToggle, .clickToggle, .wsOpen 0, .wsOpen 1]).opened.length = 2 ∧
     countConfigs (run initialDashboard
        [.clickToggle, .clickToggle, .wsOpen 0, .wsOpen 1]).sent = 2 ∧
     (run initialDashboard
        [.clickToggle, .clickToggle, .wsOpen 0, .wsOpen 1]).isConnected
       = true ∧
     (run initialDashboard
        [.clickToggle, .clickToggle, .wsOpen 0, .wsOpen 1]).isRunning
       = true) ∧
    ((run initialDashboard
        [.clickToggle, .wsOpen 0, .clickToggle]).opened.length = 1 ∧
     countConfigs (run initialDashboard
        [.clickToggle, .wsOpen 0, .clickToggle]).sent = 1 ∧
     countStops (run initialDashboard
        [.clickToggle, .wsOpen 0, .clickToggle]).sent = 1 ∧
     (run initialDashboard
        [.clickToggle, .wsOpen 0, .clickToggle]).isConnected = false ∧
     (run initialDashboard
        [.clickToggle, .wsOpen 0, .clickToggle]).isRunning = false) := by
  refine ⟨⟨?_, ?_, ?_, ?_⟩, ?_, ?_, ?_, ?_, ?_⟩ <;> rfl

/-- Counterexample to C5: an established connection whose transport fires
only a close event (a remote close, not user-initiated) transitions to
Disconnected without raising any "could not connect" alert. -/
theorem unexpected_close_no_alert_counterexample :
    (run initialDashboard
      [.clickToggle, .wsOpen 0, .wsClose 0]).isConnected = false ∧
    (run initialDashboard
      [.clickToggle, .wsOpen 0, .wsClose 0]).isRunning = false ∧
    (run initialDashboard
      [.clickToggle, .wsOpen 0, .wsClose 0]).alerts = 0 := by
  refine ⟨?_, ?_, ?_⟩ <;> rfl

/-- C5 as amended: only the transport error event surfaces the "could not
connect" alert (with transition to Disconnected); a connection that merely
closes unexpectedly transitions to Disconnected silently, exactly like a
user-initiated stop, which also raises no alert. -/
theorem error_alerts_close_and_stop_silent :
    ((run initialDashboard [.clickToggle, .wsError 0]).alerts = 1 ∧
     (run initialDashboard [.clickToggle, .wsError 0]).isConnected = false ∧
     (run initialDashboard [.clickToggle, .wsError 0]).isRunning = false) ∧
    ((run initialDashboard
        [.clickToggle, .wsOpen 0, .wsClose 0]).alerts = 0 ∧
     (run initialDashboard
        [.clickToggle, .wsOpen 0, .wsClose 0]).isConnected = false) ∧
    ((run initialDashboard
        [.clickToggle, .wsOpen 0, .clickToggle]).alerts = 0 ∧
     (run initialDashboard
        [.clickToggle, .wsOpen 0, .clickToggle]).isConnected = false ∧
     countStops (run initialDashboard
        [.clickToggle, .wsOpen 0, .clickToggle]).sent = 1) := by
  refine ⟨⟨?_, ?_, ?_⟩, ⟨?_, ?_⟩, ?_, ?_, ?_⟩ <;> rfl
